import Mathlib

/-!
Shallow embedding of `src/src/tokio_impl.rs` (repository `message-passing`):
an actor-style primitive built on tokio's unbounded mpsc channel.

The channel shared by an `AsyncMailbox` (receive side) and an `AsyncTask`
(send side plus completion handle) is modelled as an explicit state:
the FIFO queue contents plus liveness flags for the two ends.  Async
computations that may suspend are modelled by the `Async` type: polling
either yields a value (`ready`) or the computation is suspended
(`pending`).  `tokio::spawn`'s `JoinHandle` outcome is `TaskOutcome`:
the spawned future either ran to completion with a value or panicked.
-/

namespace MessagePassing

/-- State of one tokio `unbounded_channel`: the queued messages in FIFO
order (front = next to be received), whether at least one
`UnboundedSender` is still alive, and whether the `UnboundedReceiver`
(the mailbox) is still alive. -/
structure Channel (T : Type) where
  queue : List T
  senderAlive : Bool
  receiverAlive : Bool
deriving DecidableEq

/-- Result of polling an async computation once: it either completes
with a value or is suspended waiting to be woken. -/
inductive Async (A : Type) where
  | ready : A → Async A
  | pending : Async A
deriving DecidableEq

/-- `std::sync::mpsc::RecvTimeoutError` as used by
`AsyncMailbox::recv_timeout` (only the `Timeout` variant is ever
produced by the source). -/
inductive RecvTimeoutError where
  | Timeout
  | Disconnected
deriving DecidableEq

/-- `tokio::sync::mpsc::error::SendError<T>`: carries the undelivered
payload. -/
inductive SendError (T : Type) where
  | mk : T → SendError T
deriving DecidableEq

/-- Outcome of the spawned future as seen through its `JoinHandle`:
either it ran to completion with a result, or it terminated abnormally
(panicked). -/
inductive TaskOutcome (R : Type) where
  | completed : R → TaskOutcome R
  | panicked : TaskOutcome R
deriving DecidableEq

namespace AsyncMailbox

/-- `AsyncMailbox::recv`, i.e. `self.receiver.recv().await` on tokio's
`UnboundedReceiver`: if a message is queued it completes with the front
message (consuming it); on an empty queue it completes with `none` (the
closed signal) once every sender is gone, and otherwise stays suspended
waiting for a message. -/
def recv {T : Type} (ch : Channel T) : Async (Option T) × Channel T :=
  match ch.queue with
  | m :: rest => (Async.ready (some m), { ch with queue := rest })
  | [] =>
    if ch.senderAlive then (Async.pending, ch)
    else (Async.ready none, ch)

/-- `AsyncMailbox::recv_timeout`:
`tokio::time::timeout(duration, self.recv()).await.map_err(|_| Timeout)`.
If `recv` completes immediately it wins the race against the deadline
and its value is returned under `Ok`.  If `recv` is suspended, the
oracle `arrival` says whether some message is delivered to the waiting
`recv` before the deadline elapses: if so that message is returned under
`Ok`, otherwise the deadline fires and the call fails with `Timeout`. -/
def recv_timeout {T : Type} (ch : Channel T) (arrival : Option T) :
    Except RecvTimeoutError (Option T) × Channel T :=
  match recv ch with
  | (Async.ready v, ch2) => (Except.ok v, ch2)
  | (Async.pending, _) =>
    match arrival with
    | some m => (Except.ok (some m), ch)
    | none => (Except.error RecvTimeoutError.Timeout, ch)

end AsyncMailbox

namespace AsyncTask

/-- `AsyncTask::send`, i.e. `self.sender.send(payload)` on tokio's
`UnboundedSender`: while the receiver is alive the payload is enqueued
at the back of the queue and the call succeeds; once the mailbox has
been dropped it fails with `SendError(payload)`, handing the payload
back.  The body of the source function contains no `await`, so the
future it returns is ready at the first poll. -/
def send {T : Type} (ch : Channel T) (payload : T) :
    Async (Except (SendError T) Unit) × Channel T :=
  if ch.receiverAlive then
    (Async.ready (Except.ok ()), { ch with queue := ch.queue ++ [payload] })
  else
    (Async.ready (Except.error (SendError.mk payload)), ch)

/-- `AsyncTask::join`, i.e. `self.handle.await.unwrap()`: awaiting the
`JoinHandle` yields `Ok(r)` for a completed task and `Err(JoinError)`
for a panicked one; `unwrap` returns `r` in the first case and panics
in the second, aborting the joining context — modelled as `none`
(no value is ever produced, in particular no default value). -/
def join {R : Type} : TaskOutcome R → Option R
  | TaskOutcome.completed r => some r
  | TaskOutcome.panicked => none

end AsyncTask

/-- Body of the test tasks (`test_basic_async_task_communication`,
`test_multiple_async_tasks`, …): perform `n` iterations of
`receiver.recv().await.unwrap()` folding each received value into the
accumulator with `f`, over the FIFO stream `msgs` of messages the task
will receive.  `unwrap` on the closed signal `None` panics, and a `recv`
that never gets a message never completes; in both cases the body
produces no value (`none`). -/
def runRecvLoop (f : Int → Int → Int) : Nat → Int → List Int → Option Int
  | 0, acc, _ => some acc
  | Nat.succ n, acc, m :: rest => runRecvLoop f n (f acc m) rest
  | Nat.succ _, _, [] => none

/-- End-to-end run of a `spawn_async_task` scenario: the caller spawns a
task whose body performs `n` recvs folding `f` from accumulator `0`,
sends `msgs` in order through the handle (FIFO delivery), and the task's
outcome is observed through its `JoinHandle`. -/
def runTask (f : Int → Int → Int) (n : Nat) (msgs : List Int) : TaskOutcome Int :=
  match runRecvLoop f n 0 msgs with
  | some total => TaskOutcome.completed total
  | none => TaskOutcome.panicked

/-- Snapshot of a single-producer / single-consumer execution: the
messages the producer has yet to send (in order), the channel queue, and
the messages the consumer has received so far (in order). -/
structure ExecState (T : Type) where
  toSend : List T
  queue : List T
  received : List T
deriving DecidableEq

/-- One scheduler step of the producer/consumer execution: either the
producer's next `send` completes (enqueueing its message at the back of
the queue, as `AsyncTask.send` does on a live channel), or one
successful `recv` by the consumer completes (taking the front message,
as `AsyncMailbox.recv` does on a non-empty queue). -/
inductive Step {T : Type} : ExecState T → ExecState T → Prop
  | send : ∀ (m : T) (rest q r : List T),
      Step ⟨m :: rest, q, r⟩ ⟨rest, q ++ [m], r⟩
  | recv : ∀ (s : List T) (m : T) (q r : List T),
      Step ⟨s, m :: q, r⟩ ⟨s, q, r ++ [m]⟩

/-- Any finite interleaving of producer and consumer steps. -/
def Steps {T : Type} : ExecState T → ExecState T → Prop :=
  Relation.ReflTransGen Step

/-- Each step preserves the full message order
`received ++ queue ++ toSend`. -/
lemma step_inv {T : Type} {a b : ExecState T} (h : Step a b) :
    b.received ++ b.queue ++ b.toSend = a.received ++ a.queue ++ a.toSend := by
  cases h <;> simp

/-- The invariant of `step_inv` holds along any execution. -/
lemma steps_inv {T : Type} {a b : ExecState T} (h : Steps a b) :
    b.received ++ b.queue ++ b.toSend = a.received ++ a.queue ++ a.toSend := by
  induction h with
  | refl => rfl
  | tail _ hstep ih => rw [step_inv hstep, ih]

/-- Result of the k-th `AsyncMailbox.recv` call (0-indexed) in a series
of recv calls starting from channel state `ch`. -/
def recvTrace {T : Type} (ch : Channel T) : Nat → Async (Option T)
  | 0 => (AsyncMailbox.recv ch).1
  | Nat.succ k => recvTrace (AsyncMailbox.recv ch).2 k

/-- Claim C1: for every sequence of messages sent through a single
TaskHandle, any interleaved execution in which all sends complete and as
many successful recvs complete delivers exactly that sequence, in order —
FIFO, no reordering, no loss, no duplication. -/
theorem fifo_delivery {T : Type} (msgs : List T) (final : ExecState T)
    (h : Steps ⟨msgs, [], []⟩ final)
    (hs : final.toSend = []) (hq : final.queue = []) :
    final.received = msgs := by
  have hinv := steps_inv h
  simp [hs, hq] at hinv
  simpa using hinv

/-- Witness for `fifo_delivery`: the concrete execution
send 1, recv, send 2, recv delivers [1, 2]. -/
theorem fifo_delivery_witness :
    (ExecState.mk ([] : List Int) [] [1, 2]).received = [1, 2] :=
  fifo_delivery [1, 2] (ExecState.mk [] [] [1, 2])
    (Relation.ReflTransGen.head (Step.send 1 [2] [] [])
      (Relation.ReflTransGen.head (Step.recv [2] 1 [] [])
        (Relation.ReflTransGen.head (Step.send 2 [] [] [1])
          (Relation.ReflTransGen.head (Step.recv [] 2 [] [1])
            Relation.ReflTransGen.refl))))
    rfl rfl

/-- Claim C2: a task whose body performs exactly 3 recvs summing the
received integers, fed 10, 20, 30 through the handle, completes and its
join returns 60 (`test_basic_async_task_communication`). -/
theorem sum_task_join_60 :
    AsyncTask.join (runTask (fun total v => total + v) 3 [10, 20, 30]) =
      some 60 := by
  decide

/-- Claim C7: a task whose body performs 3 recvs folding
`total = total*2 + v` from 0, fed 10, 20, 30 in order, completes and its
join returns 110 (`test_multiple_async_tasks`, task2). -/
theorem accumulate_task_join_110 :
    AsyncTask.join (runTask (fun total v => total * 2 + v) 3 [10, 20, 30]) =
      some 110 := by
  decide

/-- Claim C3: on an open channel (some sender still alive), every
`recv_timeout` call either returns the next message under `Ok`, exactly
as `recv` would (when `recv` completes first — in particular whenever
the queue is non-empty, and also when a message arrives before the
deadline), or fails with the `Timeout` error (when the deadline elapses
first); no other outcome — in particular never the closed signal
`Ok(None)` — is possible. -/
theorem recv_timeout_open_outcomes {T : Type} (ch : Channel T) (arrival : Option T)
    (hopen : ch.senderAlive = true) :
    ((∃ m : T, (AsyncMailbox.recv_timeout ch arrival).1 = Except.ok (some m)) ∨
      (AsyncMailbox.recv_timeout ch arrival).1 =
        Except.error RecvTimeoutError.Timeout) ∧
    (∀ v ch2, AsyncMailbox.recv ch = (Async.ready v, ch2) →
      AsyncMailbox.recv_timeout ch arrival = (Except.ok v, ch2)) := by
  constructor
  · cases hq : ch.queue with
    | cons m rest =>
      exact Or.inl ⟨m, by simp [AsyncMailbox.recv_timeout, AsyncMailbox.recv, hq]⟩
    | nil =>
      cases arrival with
      | some m =>
        exact Or.inl ⟨m, by
          simp [AsyncMailbox.recv_timeout, AsyncMailbox.recv, hq, hopen]⟩
      | none =>
        exact Or.inr (by
          simp [AsyncMailbox.recv_timeout, AsyncMailbox.recv, hq, hopen])
  · intro v ch2 h
    simp [AsyncMailbox.recv_timeout, h]

/-- Witness for `recv_timeout_open_outcomes`: an open channel with 7
queued. -/
theorem recv_timeout_open_outcomes_witness :
    ((∃ m : Int,
        (AsyncMailbox.recv_timeout (Channel.mk [7] true true) none).1 =
          Except.ok (some m)) ∨
      (AsyncMailbox.recv_timeout (Channel.mk ([7] : List Int) true true) none).1 =
        Except.error RecvTimeoutError.Timeout) ∧
    (∀ v ch2, AsyncMailbox.recv (Channel.mk ([7] : List Int) true true) =
        (Async.ready v, ch2) →
      AsyncMailbox.recv_timeout (Channel.mk [7] true true) none =
        (Except.ok v, ch2)) :=
  recv_timeout_open_outcomes (Channel.mk [7] true true) none rfl

/-- Claim C4: when the mailbox has been destroyed, `send` fails with a
`SendError` carrying the original undelivered payload; when the mailbox
is alive, `send` succeeds; and an error outcome occurs only in the
destroyed case and always carries the payload — there is no other
failure mode. -/
theorem send_failure_carries_payload {T : Type} (ch : Channel T) (payload : T) :
    (ch.receiverAlive = false →
      (AsyncTask.send ch payload).1 =
        Async.ready (Except.error (SendError.mk payload))) ∧
    (ch.receiverAlive = true →
      (AsyncTask.send ch payload).1 = Async.ready (Except.ok ())) ∧
    (∀ e, (AsyncTask.send ch payload).1 = Async.ready (Except.error e) →
      ch.receiverAlive = false ∧ e = SendError.mk payload) := by
  refine ⟨?_, ?_, ?_⟩
  · intro h
    simp [AsyncTask.send, h]
  · intro h
    simp [AsyncTask.send, h]
  · intro e he
    cases hb : ch.receiverAlive with
    | true => simp [AsyncTask.send, hb] at he
    | false =>
      simp [AsyncTask.send, hb] at he
      exact ⟨rfl, he.symm⟩

/-- Witness for `send_failure_carries_payload`: sending 5 to a channel
whose receiver is gone. -/
theorem send_failure_carries_payload_witness :
    (AsyncTask.send (Channel.mk ([] : List Int) true false) 5).1 =
      Async.ready (Except.error (SendError.mk 5)) :=
  (send_failure_carries_payload (Channel.mk [] true false) 5).1 rfl

/-- Claim C5: `join` returns the spawned computation's result by value
when it completed, and when the computation terminated abnormally
(panicked) `join` propagates the fault — the joining context aborts and
no value, in particular no default value, is returned. -/
theorem join_returns_result_or_propagates (r : Int) :
    AsyncTask.join (TaskOutcome.completed r) = some r ∧
    AsyncTask.join (TaskOutcome.panicked : TaskOutcome Int) = none :=
  ⟨rfl, rfl⟩

/-- Claim C6: once every producer end is dropped and the queue has been
drained, the k-th subsequent `recv`, for every k, completes with the
closed signal `none`. -/
theorem recv_closed_consistent {T : Type} (ch : Channel T)
    (hdead : ch.senderAlive = false) (hempty : ch.queue = []) :
    ∀ k, recvTrace ch k = Async.ready none := by
  have hrecv : AsyncMailbox.recv ch = (Async.ready none, ch) := by
    simp [AsyncMailbox.recv, hempty, hdead]
  intro k
  induction k with
  | zero => simp [recvTrace, hrecv]
  | succ k ih =>
    simp only [recvTrace, hrecv]
    exact ih

/-- Witness for `recv_closed_consistent`: the third recv on a closed,
drained channel still returns the closed signal. -/
theorem recv_closed_consistent_witness :
    recvTrace (Channel.mk ([] : List Int) false true) 2 = Async.ready none :=
  recv_closed_consistent (Channel.mk [] false true) rfl rfl 2

/-- Claim C8: `send` never suspends — for every payload and every
channel state (whatever the queue contents), the future returned by
`send` is ready at the first poll, never pending. -/
theorem send_never_suspends {T : Type} (ch : Channel T) (payload : T) :
    ∃ r, (AsyncTask.send ch payload).1 = Async.ready r := by
  cases hb : ch.receiverAlive with
  | true => exact ⟨Except.ok (), by simp [AsyncTask.send, hb]⟩
  | false => exact ⟨Except.error (SendError.mk payload), by simp [AsyncTask.send, hb]⟩

/-- Trait bounds that can appear on the message type of the actor API
in the source. -/
inductive TraitBound where
  | clone
  | send
  | staticLifetime
deriving DecidableEq

/-- Trait bounds the source imposes on the message type `T` for the
`send` and `join` operations: the impl block is
`impl<T, R> AsyncTask<T, R> where T: Clone` (tokio_impl.rs lines
34–37), so `T: Clone` is required. -/
def asyncTaskMessageBounds : List TraitBound := [TraitBound.clone]

/-- Bounds that amount to "being a sendable value": `spawn_async_task`
requires `M: Send + 'static` of every message type. -/
def sendableBounds : List TraitBound :=
  [TraitBound.send, TraitBound.staticLifetime]

/-- Counterexample to claim C9 as stated: the `send`/`join` impl block
imposes the bound `Clone` on the message type, which is not part of
being a sendable value — an extra requirement the claim says does not
exist. -/
theorem asyncTask_requires_clone :
    ¬ (∀ b ∈ asyncTaskMessageBounds, b ∈ sendableBounds) := by
  decide

/-- Claim C9, amended: the `send` and `join` operations are available
only for message types `T` that additionally implement `Clone` — the
impl block's `where T: Clone` is exactly the extra bound beyond
sendability. -/
theorem asyncTask_bounds_are_clone :
    asyncTaskMessageBounds = [TraitBound.clone] ∧
    TraitBound.clone ∉ sendableBounds := by
  decide

/-- Claim C10: on a channel whose producer ends are all dropped and
whose queue is empty, `recv` is immediately ready with the closed
signal, so `recv_timeout` returns `Ok(None)` without the deadline race
ever firing — the same result for every arrival oracle, i.e. without
waiting out the duration — rather than a Timeout error. -/
theorem recv_timeout_closed_returns_none {T : Type} (ch : Channel T)
    (hdead : ch.senderAlive = false) (hempty : ch.queue = [])
    (arrival : Option T) :
    AsyncMailbox.recv_timeout ch arrival = (Except.ok none, ch) := by
  simp [AsyncMailbox.recv_timeout, AsyncMailbox.recv, hempty, hdead]

/-- Witness for `recv_timeout_closed_returns_none`: a closed, drained
channel reports `Ok(None)` even when no message would ever arrive. -/
theorem recv_timeout_closed_returns_none_witness :
    AsyncMailbox.recv_timeout (Channel.mk ([] : List Int) false true) none =
      (Except.ok none, Channel.mk [] false true) :=
  recv_timeout_closed_returns_none (Channel.mk [] false true) rfl rfl none

end MessagePassing
